import Mathlib

/-!
Shallow embedding of the exam-workbook layout/grading engine of
`src/main.py` (`ExcelLayoutEngine`, `build_professional_workbook`) and
verification of the frozen claims about it.

Modelling decisions:
* The student sheet is modelled as the ordered list of content writes the
  engine performs (`CellWrite`), each tagged with the styling kind the
  source applies at that call site.  The background white fill applied by
  `setup_sheets` (rows 1-99) sets styling only, writes no content, and
  precedes every question write; it is not part of the write list.
* Data-validation controls are modelled as `DataValidationRec` values, one
  per `DataValidation(...)`/`dv.add(...)` pair in the source.
* Numeric evaluation of the emitted Excel formulas is modelled over exact
  rationals (`ℚ`): `VALUE(K)`, `VALUE(J)` are taken as already-parsed
  numbers, matching the spec's "parsed as numbers" phrasing.
* Python truthiness of the optional float `tolerance` (`None` and `0.0`
  are falsy) is modelled by `pyTruthy`; truthiness of the optional options
  list (`None` and `[]` are falsy) by `pyTruthyOptions`.
-/

namespace ExamBuilder

/-- Mirrors the pydantic model `DataTable` of `src/main.py`: ordered column
headers and ordered data rows (cell values rendered as text; the engine
only writes them through, so their concrete type is irrelevant). -/
structure DataTable where
  headers : List String
  rows : List (List String)
deriving DecidableEq

/-- Mirrors the pydantic model `SubQuestion`: part label, question text,
required answer text and optional fractional tolerance. -/
structure SubQuestion where
  part : String
  question : String
  answer : String
  tolerance : Option ℚ
deriving DecidableEq

/-- Mirrors the pydantic model `Question` of `src/main.py`. -/
structure Question where
  type : String
  question : String
  answer : Option String
  options : Option (List String)
  tolerance : Option ℚ
  data_table : Option DataTable
  subquestions : Option (List SubQuestion)
deriving DecidableEq

/-- The styling kind of a student-sheet content write, one constructor per
cell-writing call site of the layout engine.  `answerInput` stands for the
empty-valued cell given `thin_border`, `center_align` and the cream
`answer_fill` — the styled, empty, editable student-input cell. -/
inductive WriteKind where
  | title
  | questionHeader
  | tableHeader
  | tableCell
  | subText
  | questionText
  | answerInput
deriving DecidableEq

/-- One content write to the student sheet: target row and column, the
value written, and the styling kind applied at that call site. -/
structure CellWrite where
  row : Nat
  col : Nat
  value : String
  kind : WriteKind
deriving DecidableEq

/-- One openpyxl `DataValidation` attached by the engine: validation type,
its `formula1` string, `allow_blank`, and the address of the cell it was
added to (`dv.add(answer_cell)`). -/
structure DataValidationRec where
  vtype : String
  formula1 : String
  allow_blank : Bool
  cell : String
deriving DecidableEq

/-- One entry of the engine's `answer_cells` registry.  `qtype` models the
dict key `type`, which `add_subquestion` omits (`none`) and
`add_simple_question` sets to the question's type. -/
structure AnswerInfo where
  question_id : String
  cell_address : String
  correct_answer : Option String
  tolerance : Option ℚ
  qtype : Option String
deriving DecidableEq

/-- The mutable state of `ExcelLayoutEngine` relevant to the claims: the
row cursor, the answer registry, the student-sheet content writes in
emission order and the attached data validations. -/
structure EngineState where
  current_row : Nat
  answer_cells : List AnswerInfo
  writes : List CellWrite
  validations : List DataValidationRec
deriving DecidableEq

/-- Python truthiness of the optional float `tolerance`: `None` and `0.0`
are falsy, every other number is truthy. -/
def pyTruthy : Option ℚ → Bool
  | none => false
  | some x => decide (x ≠ 0)

/-- Python truthiness of the optional `options` list: `None` and the empty
list are falsy. -/
def pyTruthyOptions : Option (List String) → Bool
  | none => false
  | some l => !l.isEmpty

/-- Models openpyxl's `get_column_letter` on the single-letter range
1..26; the engine only ever uses columns 3 (`C`) and 4 (`D`). -/
def get_column_letter (n : Nat) : String :=
  String.singleton (Char.ofNat (64 + n))

/-- The grading formula `setup_grading` writes into column L, represented
structurally.  `toleranceF t` stands for
`=IF(ABS(VALUE(K)-VALUE(J))<=(t*ABS(VALUE(K))),1,0)`, `textF` for
`=IF(TEXT(J,"@")=TEXT(K,"@"),1,0)` and `defaultF` for
`=IF(ABS(VALUE(K)-VALUE(J))<=0.01,1,0)`. -/
inductive GradingFormula where
  | toleranceF (tol : ℚ)
  | textF
  | defaultF
deriving DecidableEq

/-- The branch selection of `setup_grading` (src/main.py lines 266-287):
`question_type = answer_info.get('type', 'numerical')`;
`if tolerance and question_type == "numerical"` pick the tolerance
formula, `elif question_type in ["truefalse","multiplechoice","dropdown"]`
pick the exact-text formula, `else` the default 0.01 formula. -/
def chooseGradingFormula (info : AnswerInfo) : GradingFormula :=
  let question_type := info.qtype.getD "numerical"
  if pyTruthy info.tolerance ∧ question_type = "numerical" then
    GradingFormula.toleranceF (info.tolerance.getD 0)
  else if question_type = "truefalse" ∨ question_type = "multiplechoice" ∨
      question_type = "dropdown" then
    GradingFormula.textF
  else
    GradingFormula.defaultF

/-- The tolerance formula string template of src/main.py line 281, with
the interpolated tolerance passed as text. -/
def toleranceFormulaString (row : Nat) (tolStr : String) : String :=
  "=IF(ABS(VALUE(K" ++ toString row ++ ")-VALUE(J" ++ toString row ++
    "))<=(" ++ tolStr ++ "*ABS(VALUE(K" ++ toString row ++ "))),1,0)"

/-- The exact-text formula string template of src/main.py line 284. -/
def textFormulaString (row : Nat) : String :=
  "=IF(TEXT(J" ++ toString row ++ ",\x22@\x22)=TEXT(K" ++ toString row ++
    ",\x22@\x22),1,0)"

/-- The default numerical formula string template of src/main.py line 287. -/
def defaultFormulaString (row : Nat) : String :=
  "=IF(ABS(VALUE(K" ++ toString row ++ ")-VALUE(J" ++ toString row ++
    "))<=0.01,1,0)"

/-- Excel evaluation of the tolerance formula on parsed numeric cell
values: correctness 1 iff `ABS(correct - student) <= tol * ABS(correct)`. -/
def evalToleranceFormula (tol correct student : ℚ) : Nat :=
  if |correct - student| ≤ tol * |correct| then 1 else 0

/-- Character-wise ASCII lowercasing, used to model Excel case folding
(it agrees with Excel on the ASCII answer texts at hand). -/
def lowerString (s : String) : String :=
  String.mk (s.data.map Char.toLower)

/-- Excel evaluation of the emitted exact-comparison formula
`=IF(TEXT(J,"@")=TEXT(K,"@"),1,0)` on text-valued cells: `TEXT(x,"@")` is
the identity on text, and the `=` operator compares text
case-insensitively (Excel text equality ignores letter case; the
case-sensitive comparison would be the `EXACT` function, which the source
does not use). -/
def evalTextFormula (correct student : String) : Nat :=
  if lowerString student = lowerString correct then 1 else 0

/-- Excel evaluation of the default numerical formula on parsed numeric
cell values: correctness 1 iff `ABS(correct - student) <= 0.01`. -/
def evalDefaultFormula (correct student : ℚ) : Nat :=
  if |correct - student| ≤ 1 / 100 then 1 else 0

/-- One four-column row of the Solution sheet produced by
`setup_grading`: question id (column I), the live reference formula to the
student cell (column J), the correct answer literal (column K), the
grading formula (column L), and the sheet row it occupies. -/
structure GradingRow where
  question_id : String
  student_formula : String
  correct_answer : Option String
  formula : GradingFormula
  row : Nat
deriving DecidableEq

/-- `ExcelLayoutEngine.setup_grading`: starting at Solution-sheet row 2,
one `GradingRow` per registry entry in registry order, with the student
reference `=Student!<cell_address>` and the grading formula selected by
`chooseGradingFormula`. -/
def setup_grading (answer_cells : List AnswerInfo) : List GradingRow :=
  (List.enumFrom 2 answer_cells).map (fun p =>
    GradingRow.mk p.2.question_id ("=Student!" ++ p.2.cell_address)
      p.2.correct_answer (chooseGradingFormula p.2) p.1)

/-- `ExcelLayoutEngine.add_spacing`: advance the row cursor. -/
def add_spacing (rows : Nat) (st : EngineState) : EngineState :=
  { st with current_row := st.current_row + rows }

/-- Fresh engine state as built by `ExcelLayoutEngine.__init__`:
cursor at row 2, empty registry. -/
def initial_state : EngineState :=
  { current_row := 2, answer_cells := [], writes := [], validations := [] }

/-- `ExcelLayoutEngine.setup_sheets`, restricted to student-sheet content:
the title cell at row 1, column 2.  The white background fill and the
Solution-sheet headers set styling / solution content only. -/
def setup_sheets (st : EngineState) : EngineState :=
  { st with writes := st.writes ++ [CellWrite.mk 1 2 "Exam" WriteKind.title] }

/-- `ExcelLayoutEngine.add_question_header`: one spacing row, then the
bold `"{question_num}. {question_text}"` cell at column 2, then advance. -/
def add_question_header (question_num : Nat) (question_text : String)
    (st : EngineState) : EngineState :=
  let st1 := add_spacing 1 st
  let st2 := { st1 with writes := st1.writes ++
    [CellWrite.mk st1.current_row 2
      (toString question_num ++ ". " ++ question_text)
      WriteKind.questionHeader] }
  { st2 with current_row := st2.current_row + 1 }

/-- One constant-row run of formatted table cells: both loops of
`add_data_table` enumerate their values from column 3 and write one
bordered, filled, centered cell per value, all on the same row. -/
def blockWrites (kind : WriteKind) (r : Nat) (vals : List String) : List CellWrite :=
  (List.enumFrom 3 vals).map (fun p => CellWrite.mk r p.1 p.2 kind)

/-- Body of the data-row loop of `add_data_table`: write one formatted
cell per value starting at column 3, then advance the cursor. -/
def addTableRow (st : EngineState) (row_data : List String) : EngineState :=
  { st with
    writes := st.writes ++ blockWrites WriteKind.tableCell st.current_row row_data,
    current_row := st.current_row + 1 }

/-- Closed form of the data-row loop of `add_data_table`: the writes it
appends, one `tableCell` block per data row on consecutive rows. -/
def dataWrites : List (List String) → Nat → List CellWrite
  | [], _ => []
  | rd :: rest, r => blockWrites WriteKind.tableCell r rd ++ dataWrites rest (r + 1)

/-- `ExcelLayoutEngine.add_data_table`: one spacing row, the header row
(bold, header fill, bordered, centered, starting at column 3), one
formatted row per data row, one trailing spacing row.  The source's
`if not data_table: return` guard only catches `None`, which the single
call site already filters out (`if question.data_table:`), so the
argument here is a plain `DataTable`. -/
def add_data_table (data_table : DataTable) (st : EngineState) : EngineState :=
  let st1 := add_spacing 1 st
  let st2 := { st1 with
    writes := st1.writes ++
      blockWrites WriteKind.tableHeader st1.current_row data_table.headers,
    current_row := st1.current_row + 1 }
  let st3 := data_table.rows.foldl addTableRow st2
  add_spacing 1 st3

/-- `ExcelLayoutEngine.add_subquestion`: sub-question text
`"{part}. {question}"` at (current_row, column 2); styled empty editable
answer cell at (current_row + 1, column D); registry entry with
`question_id = f"{question_num}{sub_q.part}"` and no `type` key; cursor
advanced by 2 plus one spacing row. -/
def add_subquestion (sub_q : SubQuestion) (question_num : Nat)
    (st : EngineState) : EngineState :=
  let sub_text := sub_q.part ++ ". " ++ sub_q.question
  let st1 := { st with writes := st.writes ++
    [CellWrite.mk st.current_row 2 sub_text WriteKind.subText] }
  let answer_cell_addr := get_column_letter 4 ++ toString (st.current_row + 1)
  let st2 := { st1 with writes := st1.writes ++
    [CellWrite.mk (st.current_row + 1) 4 "" WriteKind.answerInput] }
  let st3 := { st2 with answer_cells := st2.answer_cells ++
    [AnswerInfo.mk (toString question_num ++ sub_q.part) answer_cell_addr
      (some sub_q.answer) sub_q.tolerance none] }
  let st4 := { st3 with current_row := st3.current_row + 2 }
  add_spacing 1 st4

/-- The data validations attached by `add_simple_question`:
`if question.type in ["dropdown","multiplechoice"] and question.options`
a list validation over the options with double quotes replaced by
apostrophes (`str(opt).replace('"', "'")`), joined by commas and wrapped
in double quotes; `elif question.type == "truefalse"` the fixed list
`"True,False"`; otherwise none. -/
def simpleValidations (question : Question) (addr : String) :
    List DataValidationRec :=
  if (question.type = "dropdown" ∨ question.type = "multiplechoice") ∧
      pyTruthyOptions question.options then
    [DataValidationRec.mk "list"
      ("\x22" ++ String.intercalate ","
        ((question.options.getD []).map (fun o => o.replace "\x22" "\x27")) ++
      "\x22") true addr]
  else if question.type = "truefalse" then
    [DataValidationRec.mk "list" "\x22True,False\x22" true addr]
  else []

/-- `ExcelLayoutEngine.add_simple_question`: one spacing row; question
text `"{question_num}. {question.question}"` at column 2; styled empty
editable answer cell at column C of the next row; optional list
validation on that cell; registry entry with `question_id =
str(question_num)` carrying the question's `type`; cursor advanced past
the answer row plus one spacing row. -/
def add_simple_question (question : Question) (question_num : Nat)
    (st : EngineState) : EngineState :=
  let st1 := add_spacing 1 st
  let st2 := { st1 with writes := st1.writes ++
    [CellWrite.mk st1.current_row 2
      (toString question_num ++ ". " ++ question.question)
      WriteKind.questionText] }
  let st3 := { st2 with current_row := st2.current_row + 1 }
  let answer_cell_addr := get_column_letter 3 ++ toString st3.current_row
  let st4 := { st3 with writes := st3.writes ++
    [CellWrite.mk st3.current_row 3 "" WriteKind.answerInput] }
  let st5 := { st4 with validations :=
    st4.validations ++ simpleValidations question answer_cell_addr }
  let st6 := { st5 with answer_cells := st5.answer_cells ++
    [AnswerInfo.mk (toString question_num) answer_cell_addr question.answer
      question.tolerance (some question.type)] }
  let st7 := { st6 with current_row := st6.current_row + 1 }
  add_spacing 1 st7

/-- The per-question dispatch of the loop in `build_professional_workbook`:
data-table / multi-part questions get a header, then the data table when
present (`if question.data_table:` — a pydantic model instance is always
truthy, `None` is falsy), then one `add_subquestion` per sub-question
(`if question.subquestions:` — `None` and `[]` are falsy, and folding over
`[]` renders nothing either way); every other type goes through
`add_simple_question`. -/
def renderQuestion (st : EngineState) (question : Question)
    (question_num : Nat) : EngineState :=
  if question.type = "data_table" ∨ question.type = "multipart" then
    let st1 := add_question_header question_num question.question st
    let st2 := match question.data_table with
      | some dt => add_data_table dt st1
      | none => st1
    match question.subquestions with
    | some subs => subs.foldl (fun s sub => add_subquestion sub question_num s) st2
    | none => st2
  else
    add_simple_question question question_num st

/-- The question loop of `build_professional_workbook`: `question_num`
starts at 1 and increments once per question of every type. -/
def renderQuestions (st : EngineState) (questions : List Question)
    (question_num : Nat) : EngineState :=
  match questions with
  | [] => st
  | q :: rest => renderQuestions (renderQuestion st q question_num) rest
      (question_num + 1)

/-- `build_professional_workbook` up to the layout pass: fresh workbook
and engine, `setup_sheets`, then the question loop from 1.  The grading
sheet is then produced by `setup_grading` from the resulting registry. -/
def build_professional_workbook (questions : List Question) : EngineState :=
  renderQuestions (setup_sheets initial_state) questions 1

/-- The question id the source registers for one question with sequence
number `n`: data-table / multi-part questions register one id per
sub-question, namely `f"{n}{part}"`; every other type registers the single
id `str(n)`. -/
def expectedIdsOfQuestion (n : Nat) (q : Question) : List String :=
  if q.type = "data_table" ∨ q.type = "multipart" then
    (q.subquestions.getD []).map (fun sub => toString n ++ sub.part)
  else [toString n]

/-- The question ids expected across a question list, numbering from `n`. -/
def expectedIds : List Question → Nat → List String
  | [], _ => []
  | q :: rest, n => expectedIdsOfQuestion n q ++ expectedIds rest (n + 1)

/-- The registry entry `a` names, at row `r`, a cell the engine wrote as a
styled, empty, editable answer-input cell: some write in `ws` is an
`answerInput` write of the empty value whose row is `r` and whose address
is exactly `a.cell_address`. -/
def answerCellMatches (ws : List CellWrite) (a : AnswerInfo) (r : Nat) : Prop :=
  ∃ w ∈ ws, w.kind = WriteKind.answerInput ∧ w.value = "" ∧ w.row = r ∧
    a.cell_address = get_column_letter w.col ++ toString w.row

/-- Invariant carried through the layout pass: `rows` assigns to the
registry entries, in order, strictly increasing student-sheet rows below
the cursor, each backed by an answer-input write at that entry's
recorded address. -/
def registryInv (st : EngineState) (rows : List Nat) : Prop :=
  List.Pairwise (· < ·) rows ∧ (∀ r ∈ rows, r < st.current_row) ∧
  List.Forall₂ (answerCellMatches st.writes) st.answer_cells rows

/-! ### Closed forms of the layout operations -/

theorem add_question_header_eq (n : Nat) (t : String) (st : EngineState) :
    add_question_header n t st =
      { st with
        current_row := st.current_row + 2,
        writes := st.writes ++
          [CellWrite.mk (st.current_row + 1) 2 (toString n ++ ". " ++ t)
            WriteKind.questionHeader] } := rfl

theorem foldl_addTableRow (rows : List (List String)) (st : EngineState) :
    rows.foldl addTableRow st =
      { st with
        writes := st.writes ++ dataWrites rows st.current_row,
        current_row := st.current_row + rows.length } := by
  induction rows generalizing st with
  | nil => simp [dataWrites]
  | cons rd rest ih =>
      show rest.foldl addTableRow (addTableRow st rd) = _
      rw [ih]
      simp [addTableRow, dataWrites, List.append_assoc, EngineState.mk.injEq]
      omega

theorem add_data_table_eq (dt : DataTable) (st : EngineState) :
    add_data_table dt st =
      { st with
        writes := st.writes ++
          (blockWrites WriteKind.tableHeader (st.current_row + 1) dt.headers ++
            dataWrites dt.rows (st.current_row + 2)),
        current_row := st.current_row + 3 + dt.rows.length } := by
  show add_spacing 1 (dt.rows.foldl addTableRow _) = _
  rw [foldl_addTableRow]
  simp [add_spacing, List.append_assoc, EngineState.mk.injEq]
  omega

theorem add_subquestion_eq (sub_q : SubQuestion) (n : Nat) (st : EngineState) :
    add_subquestion sub_q n st =
      { st with
        current_row := st.current_row + 3,
        writes := st.writes ++
          [CellWrite.mk st.current_row 2 (sub_q.part ++ ". " ++ sub_q.question)
            WriteKind.subText,
           CellWrite.mk (st.current_row + 1) 4 "" WriteKind.answerInput],
        answer_cells := st.answer_cells ++
          [AnswerInfo.mk (toString n ++ sub_q.part)
            (get_column_letter 4 ++ toString (st.current_row + 1))
            (some sub_q.answer) sub_q.tolerance none] } := by
  simp [add_subquestion, add_spacing, List.append_assoc, EngineState.mk.injEq]

theorem add_simple_question_eq (q : Question) (n : Nat) (st : EngineState) :
    add_simple_question q n st =
      { st with
        current_row := st.current_row + 4,
        writes := st.writes ++
          [CellWrite.mk (st.current_row + 1) 2
            (toString n ++ ". " ++ q.question) WriteKind.questionText,
           CellWrite.mk (st.current_row + 2) 3 "" WriteKind.answerInput],
        answer_cells := st.answer_cells ++
          [AnswerInfo.mk (toString n)
            (get_column_letter 3 ++ toString (st.current_row + 2))
            q.answer q.tolerance (some q.type)],
        validations := st.validations ++
          simpleValidations q (get_column_letter 3 ++ toString (st.current_row + 2)) } := by
  simp [add_simple_question, add_spacing, List.append_assoc, EngineState.mk.injEq]

/-! ### Grading-formula selection -/

theorem chooseGradingFormula_toleranceF (info : AnswerInfo) (t : ℚ)
    (ht : info.tolerance = some t) (hnz : t ≠ 0)
    (hty : info.qtype.getD "numerical" = "numerical") :
    chooseGradingFormula info = GradingFormula.toleranceF t := by
  simp [chooseGradingFormula, pyTruthy, ht, hty, hnz]

theorem chooseGradingFormula_textF (info : AnswerInfo)
    (h : info.qtype = some "truefalse" ∨ info.qtype = some "multiplechoice" ∨
      info.qtype = some "dropdown") :
    chooseGradingFormula info = GradingFormula.textF := by
  rcases h with h | h | h <;> simp [chooseGradingFormula, h]

theorem chooseGradingFormula_defaultF (info : AnswerInfo)
    (h1 : pyTruthy info.tolerance = false ∨
      ¬ info.qtype.getD "numerical" = "numerical")
    (h2 : ¬(info.qtype.getD "numerical" = "truefalse" ∨
      info.qtype.getD "numerical" = "multiplechoice" ∨
      info.qtype.getD "numerical" = "dropdown")) :
    chooseGradingFormula info = GradingFormula.defaultF := by
  rcases h1 with h1 | h1 <;> simp [chooseGradingFormula, h1] <;> simp_all

theorem setup_grading_formulas (answer_cells : List AnswerInfo) :
    (setup_grading answer_cells).map (fun g => g.formula) =
      answer_cells.map chooseGradingFormula := by
  simp [setup_grading, List.map_map]
  rw [show ((fun g => g.formula) ∘ fun p : Nat × AnswerInfo =>
      GradingRow.mk p.2.question_id ("=Student!" ++ p.2.cell_address)
        p.2.correct_answer (chooseGradingFormula p.2) p.1)
    = chooseGradingFormula ∘ Prod.snd from rfl]
  rw [← List.map_map, List.enumFrom_map_snd]

theorem evalToleranceFormula_eq_one_iff (t correct student : ℚ) :
    evalToleranceFormula t correct student = 1 ↔
      |correct - student| ≤ t * |correct| := by
  by_cases h : |correct - student| ≤ t * |correct| <;>
    simp [evalToleranceFormula, h]

theorem evalTextFormula_eq_one_iff (correct student : String) :
    evalTextFormula correct student = 1 ↔
      lowerString student = lowerString correct := by
  by_cases h : lowerString student = lowerString correct <;>
    simp [evalTextFormula, h]

theorem evalToleranceFormula_eq_zero_iff (t correct student : ℚ) :
    evalToleranceFormula t correct student = 0 ↔
      ¬ |correct - student| ≤ t * |correct| := by
  by_cases h : |correct - student| ≤ t * |correct| <;>
    simp [evalToleranceFormula, h]

theorem evalDefaultFormula_eq_zero_iff (correct student : ℚ) :
    evalDefaultFormula correct student = 0 ↔
      ¬ |correct - student| ≤ 1 / 100 := by
  by_cases h : |correct - student| ≤ (1 : ℚ) / 100 <;>
    simp [evalDefaultFormula, h]

theorem evalDefaultFormula_eq_one_iff (correct student : ℚ) :
    evalDefaultFormula correct student = 1 ↔ |correct - student| ≤ 1 / 100 := by
  by_cases h : |correct - student| ≤ (1 : ℚ) / 100 <;>
    simp [evalDefaultFormula, h]

/-! ### Claim C1 -/

/-- C1 (amended): for every answer record whose type is true/false,
multiple-choice or dropdown, `setup_grading` emits the exact-text
comparison formula, and under Excel evaluation that formula yields
correctness 1 iff the correct answer and the student answer are equal as
text ignoring letter case (Excel's `=` operator on text is
case-insensitive); in particular with correct answer "True", student
answers "True" and "true" both grade 1. -/
theorem choice_grading_case_insensitive (info : AnswerInfo)
    (h : info.qtype = some "truefalse" ∨ info.qtype = some "multiplechoice" ∨
      info.qtype = some "dropdown") :
    chooseGradingFormula info = GradingFormula.textF ∧
    (∀ correct student : String,
      evalTextFormula correct student = 1 ↔
        lowerString student = lowerString correct) ∧
    evalTextFormula "True" "True" = 1 ∧ evalTextFormula "True" "true" = 1 :=
  ⟨chooseGradingFormula_textF info h, evalTextFormula_eq_one_iff,
    by decide, by decide⟩

/-- Witness for `choice_grading_case_insensitive` at the concrete
true/false record with correct answer "True". -/
theorem choice_grading_case_insensitive_witness :
    chooseGradingFormula
        (AnswerInfo.mk "2" "C14" (some "True") none (some "truefalse")) =
      GradingFormula.textF ∧
    evalTextFormula "True" "True" = 1 ∧ evalTextFormula "True" "true" = 1 :=
  ⟨(choice_grading_case_insensitive _ (Or.inl rfl)).1,
    (choice_grading_case_insensitive
      (AnswerInfo.mk "2" "C14" (some "True") none (some "truefalse"))
      (Or.inl rfl)).2.2⟩

/-- C1 counterexample: for the true/false record with correct answer
"True", the formula `setup_grading` emits is the text comparison, and on
student answer "true" its Excel evaluation yields 1, not the 0 the claim
predicts — Excel text equality is case-insensitive, not case-sensitive. -/
theorem choice_grading_not_case_sensitive :
    chooseGradingFormula
        (AnswerInfo.mk "2" "C14" (some "True") none (some "truefalse")) =
      GradingFormula.textF ∧
    evalTextFormula "True" "true" = 1 ∧
    ¬ evalTextFormula "True" "true" = 0 := by
  refine ⟨by decide, by decide, by decide⟩

/-! ### Claim C2 -/

/-- C2 (amended): for every answer record with a nonzero tolerance set
whose (defaulted) type is numerical, `setup_grading` emits the
tolerance-relative formula, which yields correctness 1 iff the absolute
difference of the parsed answers is at most tolerance times the absolute
value of the correct answer; with correct answer 100 and tolerance 0.02,
student answers 98, 102, 97.9 and 102.1 grade 1, 1, 0, 0.  (A record
whose tolerance is set to 0 is falsy in Python and falls through to the
default 0.01-threshold formula instead.) -/
theorem tolerance_grading_relative (info : AnswerInfo) (t : ℚ)
    (ht : info.tolerance = some t) (hnz : t ≠ 0)
    (hty : info.qtype.getD "numerical" = "numerical") :
    chooseGradingFormula info = GradingFormula.toleranceF t ∧
    (∀ correct student : ℚ, evalToleranceFormula t correct student = 1 ↔
      |correct - student| ≤ t * |correct|) ∧
    evalToleranceFormula (2 / 100) 100 98 = 1 ∧
    evalToleranceFormula (2 / 100) 100 102 = 1 ∧
    evalToleranceFormula (2 / 100) 100 (979 / 10) = 0 ∧
    evalToleranceFormula (2 / 100) 100 (1021 / 10) = 0 :=
  ⟨chooseGradingFormula_toleranceF info t ht hnz hty,
    evalToleranceFormula_eq_one_iff t,
    (evalToleranceFormula_eq_one_iff _ _ _).mpr (by norm_num [abs_le]),
    (evalToleranceFormula_eq_one_iff _ _ _).mpr (by norm_num [abs_le]),
    (evalToleranceFormula_eq_zero_iff _ _ _).mpr (by norm_num [abs_le, lt_abs]),
    (evalToleranceFormula_eq_zero_iff _ _ _).mpr (by norm_num [abs_le, lt_abs])⟩

/-- Witness for `tolerance_grading_relative` at the concrete sub-question
record (no type key, so the type defaults to numerical) with tolerance
0.02. -/
theorem tolerance_grading_relative_witness :
    chooseGradingFormula
        (AnswerInfo.mk "1A" "D10" (some "8.9") (some (2 / 100)) none) =
      GradingFormula.toleranceF (2 / 100) ∧
    evalToleranceFormula (2 / 100) 100 98 = 1 ∧
    evalToleranceFormula (2 / 100) 100 (979 / 10) = 0 :=
  ⟨(tolerance_grading_relative
      (AnswerInfo.mk "1A" "D10" (some "8.9") (some (2 / 100)) none)
      (2 / 100) rfl (by norm_num) rfl).1,
    (tolerance_grading_relative
      (AnswerInfo.mk "1A" "D10" (some "8.9") (some (2 / 100)) none)
      (2 / 100) rfl (by norm_num) rfl).2.2.1,
    (tolerance_grading_relative
      (AnswerInfo.mk "1A" "D10" (some "8.9") (some (2 / 100)) none)
      (2 / 100) rfl (by norm_num) rfl).2.2.2.2.1⟩

/-- C2 counterexample: a numerical record with tolerance set to 0 — a set
tolerance in the claim's sense — is graded by the default 0.01-threshold
formula, not the tolerance formula: on correct answer 100 and student
answer 100.005 the emitted formula yields 1, while the claim's
tolerance-relative condition |100 - 100.005| ≤ 0 × |100| is false. -/
theorem tolerance_zero_falls_through :
    chooseGradingFormula
        (AnswerInfo.mk "1" "C3" (some "100") (some 0) (some "numerical")) =
      GradingFormula.defaultF ∧
    evalDefaultFormula 100 (100 + 5 / 1000) = 1 ∧
    ¬ (|(100 : ℚ) - (100 + 5 / 1000)| ≤ 0 * |(100 : ℚ)|) := by
  refine ⟨?_, ?_, by norm_num [abs_le, lt_abs]⟩
  · simp [chooseGradingFormula, pyTruthy]
  · exact (evalDefaultFormula_eq_one_iff _ _).mpr (by norm_num [abs_le])

/-! ### Claim C3 -/

/-- C3: for every answer record that has no tolerance set and whose
(defaulted) type is not a choice type, `setup_grading` emits the default
numerical formula, which yields correctness 1 iff the absolute difference
of the parsed answers is at most the fixed threshold 0.01; with correct
answer 50.00, student answer 50.009 grades 1 and 50.02 grades 0. -/
theorem default_grading_fixed_threshold (info : AnswerInfo)
    (h1 : info.tolerance = none)
    (h2 : ¬(info.qtype.getD "numerical" = "truefalse" ∨
      info.qtype.getD "numerical" = "multiplechoice" ∨
      info.qtype.getD "numerical" = "dropdown")) :
    chooseGradingFormula info = GradingFormula.defaultF ∧
    (∀ correct student : ℚ, evalDefaultFormula correct student = 1 ↔
      |correct - student| ≤ 1 / 100) ∧
    evalDefaultFormula 50 (50 + 9 / 1000) = 1 ∧
    evalDefaultFormula 50 (50 + 2 / 100) = 0 :=
  ⟨chooseGradingFormula_defaultF info (Or.inl (by simp [pyTruthy, h1])) h2,
    evalDefaultFormula_eq_one_iff,
    (evalDefaultFormula_eq_one_iff _ _).mpr (by norm_num [abs_le]),
    (evalDefaultFormula_eq_zero_iff _ _).mpr (by norm_num [abs_le, lt_abs])⟩

/-- Witness for `default_grading_fixed_threshold` at a concrete
numerical record without tolerance. -/
theorem default_grading_fixed_threshold_witness :
    chooseGradingFormula
        (AnswerInfo.mk "3" "C18" (some "50.00") none (some "numerical")) =
      GradingFormula.defaultF ∧
    evalDefaultFormula 50 (50 + 9 / 1000) = 1 ∧
    evalDefaultFormula 50 (50 + 2 / 100) = 0 :=
  ⟨(default_grading_fixed_threshold
      (AnswerInfo.mk "3" "C18" (some "50.00") none (some "numerical"))
      rfl (by simp)).1,
    (default_grading_fixed_threshold
      (AnswerInfo.mk "3" "C18" (some "50.00") none (some "numerical"))
      rfl (by simp)).2.2⟩

/-! ### Claim C10 -/

/-- C10: every registry entry created by `add_subquestion` carries no type
key, so `setup_grading` defaults its type to numerical and grades it
numerically — by the tolerance-relative formula when a nonzero tolerance
is present, by the absolute 0.01-threshold formula otherwise — and never
by the exact-text comparison. -/
theorem subquestion_records_graded_numerically (sub_q : SubQuestion)
    (n : Nat) (st : EngineState) (a : AnswerInfo)
    (hmem : a ∈ (add_subquestion sub_q n st).answer_cells)
    (hnew : a ∉ st.answer_cells) :
    a.qtype = none ∧
    chooseGradingFormula a ≠ GradingFormula.textF ∧
    (∀ t, a.tolerance = some t → t ≠ 0 →
      chooseGradingFormula a = GradingFormula.toleranceF t) ∧
    (pyTruthy a.tolerance = false →
      chooseGradingFormula a = GradingFormula.defaultF) := by
  rw [add_subquestion_eq] at hmem
  rw [List.mem_append] at hmem
  rcases hmem with hmem | hmem
  · exact absurd hmem hnew
  · rw [List.mem_singleton] at hmem
    subst hmem
    refine ⟨rfl, ?_, ?_, ?_⟩
    · intro hcontra
      by_cases hp : pyTruthy sub_q.tolerance = true <;>
        simp [chooseGradingFormula, hp] at hcontra
    · intro t ht hnz
      exact chooseGradingFormula_toleranceF _ t ht hnz rfl
    · intro hp
      exact chooseGradingFormula_defaultF _ (Or.inl hp) (by simp)

/-- Witness for `subquestion_records_graded_numerically` at a concrete
sub-question added to the fresh engine state. -/
theorem subquestion_records_graded_numerically_witness :
    (AnswerInfo.mk "1A" "D3" (some "8.9") (some (2 / 100)) none).qtype
      = none ∧
    chooseGradingFormula
        (AnswerInfo.mk "1A" "D3" (some "8.9") (some (2 / 100)) none) =
      GradingFormula.toleranceF (2 / 100) := by
  have hmem : AnswerInfo.mk "1A" "D3" (some "8.9") (some (2 / 100)) none ∈
      (add_subquestion (SubQuestion.mk "A" "growth?" "8.9" (some (2 / 100)))
        1 initial_state).answer_cells := by
    rw [add_subquestion_eq]
    exact List.mem_append_right _ (List.mem_singleton.mpr rfl)
  have hnew : AnswerInfo.mk "1A" "D3" (some "8.9") (some (2 / 100)) none ∉
      initial_state.answer_cells := List.not_mem_nil _
  have h := subquestion_records_graded_numerically
    (SubQuestion.mk "A" "growth?" "8.9" (some (2 / 100))) 1 initial_state
    (AnswerInfo.mk "1A" "D3" (some "8.9") (some (2 / 100)) none) hmem hnew
  exact ⟨h.1, h.2.2.1 (2 / 100) rfl (by norm_num)⟩

/-! ### Claim C9 -/

/-- C9: the build path is a pure function of the input question list —
it reads no external state — so building twice from identical inputs
yields registries with the same question ids, the same correct answers
and the same tolerances, in the same order. -/
theorem build_deterministic (qs1 qs2 : List Question) (h : qs1 = qs2) :
    (build_professional_workbook qs1).answer_cells.map
        (fun a => a.question_id) =
      (build_professional_workbook qs2).answer_cells.map
        (fun a => a.question_id) ∧
    (build_professional_workbook qs1).answer_cells.map
        (fun a => a.correct_answer) =
      (build_professional_workbook qs2).answer_cells.map
        (fun a => a.correct_answer) ∧
    (build_professional_workbook qs1).answer_cells.map
        (fun a => a.tolerance) =
      (build_professional_workbook qs2).answer_cells.map
        (fun a => a.tolerance) := by
  subst h
  exact ⟨rfl, rfl, rfl⟩

/-- Witness for `build_deterministic` at a concrete one-question list. -/
theorem build_deterministic_witness :
    (build_professional_workbook
        [Question.mk "truefalse" "Sky blue?" (some "True") none none none none]).answer_cells.map
        (fun a => a.question_id) =
      (build_professional_workbook
        [Question.mk "truefalse" "Sky blue?" (some "True") none none none none]).answer_cells.map
        (fun a => a.question_id) :=
  (build_deterministic _ _ rfl).1

/-! ### Claim C8 -/

theorem blockWrites_row (kind : WriteKind) (r : Nat) (vals : List String) :
    ∀ w ∈ blockWrites kind r vals, w.row = r := by
  intro w hw
  simp only [blockWrites, List.mem_map] at hw
  obtain ⟨p, _, rfl⟩ := hw
  rfl

theorem dataWrites_row_bound (rows : List (List String)) (r : Nat) :
    ∀ w ∈ dataWrites rows r, r ≤ w.row ∧ w.row < r + rows.length := by
  induction rows generalizing r with
  | nil => simp [dataWrites]
  | cons rd rest ih =>
      intro w hw
      rw [dataWrites, List.mem_append] at hw
      rcases hw with hw | hw
      · have := blockWrites_row _ _ _ w hw
        simp [List.length_cons]
        omega
      · have := ih (r + 1) w hw
        simp [List.length_cons]
        omega

/-- C8: each of the four rendering operations leaves the row cursor
strictly greater than when it started, and every write it performs lands
at a row at or beyond the cursor it started with and strictly below the
cursor it leaves; since the cursor never moves backwards, no two
operations write question or answer content to the same row. -/
theorem row_cursor_strictly_advances :
    (∀ (n : Nat) (t : String) (st : EngineState),
      st.current_row < (add_question_header n t st).current_row ∧
      ∀ w ∈ (add_question_header n t st).writes, w ∈ st.writes ∨
        (st.current_row ≤ w.row ∧
          w.row < (add_question_header n t st).current_row)) ∧
    (∀ (dt : DataTable) (st : EngineState),
      st.current_row < (add_data_table dt st).current_row ∧
      ∀ w ∈ (add_data_table dt st).writes, w ∈ st.writes ∨
        (st.current_row ≤ w.row ∧
          w.row < (add_data_table dt st).current_row)) ∧
    (∀ (sub_q : SubQuestion) (n : Nat) (st : EngineState),
      st.current_row < (add_subquestion sub_q n st).current_row ∧
      ∀ w ∈ (add_subquestion sub_q n st).writes, w ∈ st.writes ∨
        (st.current_row ≤ w.row ∧
          w.row < (add_subquestion sub_q n st).current_row)) ∧
    (∀ (q : Question) (n : Nat) (st : EngineState),
      st.current_row < (add_simple_question q n st).current_row ∧
      ∀ w ∈ (add_simple_question q n st).writes, w ∈ st.writes ∨
        (st.current_row ≤ w.row ∧
          w.row < (add_simple_question q n st).current_row)) := by
  refine ⟨?_, ?_, ?_, ?_⟩
  · intro n t st
    rw [add_question_header_eq]
    refine ⟨by simp, ?_⟩
    intro w hw
    rw [List.mem_append] at hw
    rcases hw with hw | hw
    · exact Or.inl hw
    · rw [List.mem_singleton] at hw
      subst hw
      simp
  · intro dt st
    rw [add_data_table_eq]
    refine ⟨by simp; omega, ?_⟩
    intro w hw
    rw [List.mem_append] at hw
    rcases hw with hw | hw
    · exact Or.inl hw
    · rw [List.mem_append] at hw
      refine Or.inr ?_
      rcases hw with hw | hw
      · have := blockWrites_row _ _ _ w hw
        simp
        omega
      · have := dataWrites_row_bound _ _ w hw
        simp
        omega
  · intro sub_q n st
    rw [add_subquestion_eq]
    refine ⟨by simp, ?_⟩
    intro w hw
    rw [List.mem_append] at hw
    rcases hw with hw | hw
    · exact Or.inl hw
    · refine Or.inr ?_
      simp only [List.mem_cons, List.not_mem_nil, or_false] at hw
      rcases hw with rfl | rfl
      · simp
      · simp
  · intro q n st
    rw [add_simple_question_eq]
    refine ⟨by simp, ?_⟩
    intro w hw
    rw [List.mem_append] at hw
    rcases hw with hw | hw
    · exact Or.inl hw
    · refine Or.inr ?_
      simp only [List.mem_cons, List.not_mem_nil, or_false] at hw
      rcases hw with rfl | rfl
      · simp
      · simp

/-- Witness for `row_cursor_strictly_advances`: the header operation on
the fresh state advances the cursor from 2 to 4, and its single write — a
concrete member of the resulting write list — lands on row 3, inside the
half-open window [2, 4). -/
theorem row_cursor_strictly_advances_witness :
    initial_state.current_row <
      (add_question_header 1 "Q" initial_state).current_row ∧
    (CellWrite.mk 3 2 (toString 1 ++ ". " ++ "Q") WriteKind.questionHeader ∈
        initial_state.writes ∨
      (initial_state.current_row ≤ 3 ∧
        3 < (add_question_header 1 "Q" initial_state).current_row)) :=
  ⟨(row_cursor_strictly_advances.1 1 "Q" initial_state).1,
    (row_cursor_strictly_advances.1 1 "Q" initial_state).2
      (CellWrite.mk 3 2 (toString 1 ++ ". " ++ "Q") WriteKind.questionHeader)
      (by rw [add_question_header_eq]; exact
        List.mem_append_right _ (List.mem_singleton.mpr rfl))⟩

/-! ### Claim C5 -/

theorem foldl_add_subquestion_ids (subs : List SubQuestion) (n : Nat)
    (st : EngineState) :
    ((subs.foldl (fun s sub => add_subquestion sub n s) st).answer_cells).map
        (fun a => a.question_id)
      = st.answer_cells.map (fun a => a.question_id) ++
        subs.map (fun sub => toString n ++ sub.part) := by
  induction subs generalizing st with
  | nil => simp
  | cons sub rest ih =>
      show ((rest.foldl _ (add_subquestion sub n st)).answer_cells).map _ = _
      rw [ih, add_subquestion_eq]
      simp [List.append_assoc]

theorem renderQuestion_ids (st : EngineState) (q : Question) (n : Nat) :
    ((renderQuestion st q n).answer_cells).map (fun a => a.question_id)
      = st.answer_cells.map (fun a => a.question_id) ++
        expectedIdsOfQuestion n q := by
  simp only [renderQuestion, expectedIdsOfQuestion]
  by_cases hty : q.type = "data_table" ∨ q.type = "multipart"
  · rw [if_pos hty, if_pos hty]
    have h1 : (add_question_header n q.question st).answer_cells
        = st.answer_cells := by
      rw [add_question_header_eq]
    cases hdt : q.data_table with
    | none =>
        cases hsub : q.subquestions with
        | none => simp [h1]
        | some subs => rw [foldl_add_subquestion_ids, h1]; simp
    | some dt =>
        have h2 : (add_data_table dt (add_question_header n q.question st)).answer_cells
            = st.answer_cells := by
          rw [add_data_table_eq, h1]
        cases hsub : q.subquestions with
        | none => simp [h2]
        | some subs => rw [foldl_add_subquestion_ids, h2]; simp
  · rw [if_neg hty, if_neg hty, add_simple_question_eq]
    simp

theorem renderQuestions_ids (qs : List Question) (st : EngineState) (n : Nat) :
    ((renderQuestions st qs n).answer_cells).map (fun a => a.question_id)
      = st.answer_cells.map (fun a => a.question_id) ++ expectedIds qs n := by
  induction qs generalizing st n with
  | nil => simp [renderQuestions, expectedIds]
  | cons q rest ih =>
      show ((renderQuestions (renderQuestion st q n) rest (n + 1)).answer_cells).map _ = _
      rw [ih, renderQuestion_ids, expectedIds, List.append_assoc]

/-- C5: after building, the registry's question ids are exactly, in
order: for every question with sequence number n (numbered from 1),
`toString n ++ part` once per sub-question when the question is a
data-table / multi-part type, and the single id `toString n` for every
other type. -/
theorem question_ids_follow_sequence (questions : List Question) :
    (build_professional_workbook questions).answer_cells.map
        (fun a => a.question_id) = expectedIds questions 1 := by
  rw [build_professional_workbook, renderQuestions_ids]
  simp [setup_sheets, initial_state]

/-! ### Claim C6 -/

theorem blockWrites_length (kind : WriteKind) (r : Nat) (vals : List String) :
    (blockWrites kind r vals).length = vals.length := by
  simp [blockWrites]

theorem blockWrites_map_row (kind : WriteKind) (r : Nat) (vals : List String) :
    (blockWrites kind r vals).map (fun w => w.row)
      = List.replicate vals.length r := by
  rw [blockWrites, List.map_map]
  rw [show ((fun w : CellWrite => w.row) ∘
      fun p : Nat × String => CellWrite.mk r p.1 p.2 kind) = fun _ => r from rfl]
  rw [List.map_const']
  rw [List.enumFrom_length]

theorem dataWrites_toFinset (rows : List (List String)) (r N : Nat)
    (hN : 0 < N) (hrows : ∀ rd ∈ rows, rd.length = N) :
    ((dataWrites rows r).map (fun w => w.row)).toFinset
      = Finset.Ico r (r + rows.length) := by
  induction rows generalizing r with
  | nil => simp [dataWrites]
  | cons rd rest ih =>
      have hlen : rd.length = N := hrows rd (List.mem_cons_self _ _)
      have hin : ∀ rd2 ∈ rest, rd2.length = N :=
        fun rd2 h => hrows rd2 (List.mem_cons_of_mem _ h)
      rw [dataWrites, List.map_append, List.toFinset_append,
        blockWrites_map_row, ih (r + 1) hin,
        List.toFinset_replicate_of_ne_zero (by omega)]
      ext x
      simp only [Finset.mem_union, Finset.mem_singleton, Finset.mem_Ico,
        List.length_cons]
      omega

theorem dataWrites_filter_length (rows : List (List String)) (r N : Nat)
    (hrows : ∀ rd ∈ rows, rd.length = N) :
    ∀ r2, r ≤ r2 → r2 < r + rows.length →
      ((dataWrites rows r).filter (fun w => w.row == r2)).length = N := by
  induction rows generalizing r with
  | nil => intro r2 h1 h2; simp at h2; omega
  | cons rd rest ih =>
      intro r2 h1 h2
      have hlen : rd.length = N := hrows rd (List.mem_cons_self _ _)
      have hin : ∀ rd2 ∈ rest, rd2.length = N :=
        fun rd2 h => hrows rd2 (List.mem_cons_of_mem _ h)
      rw [dataWrites, List.filter_append, List.length_append]
      by_cases hr : r2 = r
      · subst hr
        have hblock : (blockWrites WriteKind.tableCell r2 rd).filter
            (fun w => w.row == r2) = blockWrites WriteKind.tableCell r2 rd := by
          rw [List.filter_eq_self]
          intro w hw
          have := blockWrites_row _ _ _ w hw
          simp [this]
        have hrest : (dataWrites rest (r2 + 1)).filter
            (fun w => w.row == r2) = [] := by
          rw [List.filter_eq_nil_iff]
          intro w hw
          have := dataWrites_row_bound rest (r2 + 1) w hw
          simp
          omega
        rw [hblock, hrest, blockWrites_length, hlen]
        simp
      · have hblock : (blockWrites WriteKind.tableCell r rd).filter
            (fun w => w.row == r2) = [] := by
          rw [List.filter_eq_nil_iff]
          intro w hw
          have := blockWrites_row _ _ _ w hw
          simp
          omega
        rw [hblock]
        simp only [List.length_nil, Nat.zero_add]
        refine ih (r + 1) hin r2 (by omega) ?_
        simp only [List.length_cons] at h2
        omega

/-- C6 (amended): for every data table with N ≥ 1 header columns and M
data rows each of which has exactly N cells, `add_data_table` writes
exactly M + 1 formatted rows (one header row plus M data rows) with N
populated columns per formatted row, and appends nothing to the answer
registry. -/
theorem data_table_renders_rows (dt : DataTable) (st : EngineState)
    (hN : 0 < dt.headers.length)
    (hrows : ∀ rd ∈ dt.rows, rd.length = dt.headers.length) :
    ((((add_data_table dt st).writes.drop st.writes.length).map
        (fun w => w.row)).toFinset).card = dt.rows.length + 1 ∧
    (∀ r ∈ (((add_data_table dt st).writes.drop st.writes.length).map
        (fun w => w.row)).toFinset,
      (((add_data_table dt st).writes.drop st.writes.length).filter
        (fun w => w.row == r)).length = dt.headers.length) ∧
    (add_data_table dt st).answer_cells = st.answer_cells := by
  have hdrop : (add_data_table dt st).writes.drop st.writes.length
      = blockWrites WriteKind.tableHeader (st.current_row + 1) dt.headers ++
        dataWrites dt.rows (st.current_row + 2) := by
    rw [add_data_table_eq]
    exact List.drop_left _ _
  have htf : (((add_data_table dt st).writes.drop st.writes.length).map
      (fun w => w.row)).toFinset
      = Finset.Ico (st.current_row + 1)
          (st.current_row + 2 + dt.rows.length) := by
    rw [hdrop, List.map_append, List.toFinset_append, blockWrites_map_row,
      List.toFinset_replicate_of_ne_zero (by omega),
      dataWrites_toFinset dt.rows _ dt.headers.length hN hrows]
    ext x
    simp only [Finset.mem_union, Finset.mem_singleton, Finset.mem_Ico]
    omega
  refine ⟨?_, ?_, ?_⟩
  · rw [htf, Nat.card_Ico]
    omega
  · intro r hr
    rw [htf, Finset.mem_Ico] at hr
    rw [hdrop, List.filter_append, List.length_append]
    by_cases hr1 : r = st.current_row + 1
    · subst hr1
      have hblock : (blockWrites WriteKind.tableHeader (st.current_row + 1)
          dt.headers).filter (fun w => w.row == st.current_row + 1)
          = blockWrites WriteKind.tableHeader (st.current_row + 1) dt.headers := by
        rw [List.filter_eq_self]
        intro w hw
        have := blockWrites_row _ _ _ w hw
        simp [this]
      have hrest : (dataWrites dt.rows (st.current_row + 2)).filter
          (fun w => w.row == st.current_row + 1) = [] := by
        rw [List.filter_eq_nil_iff]
        intro w hw
        have := dataWrites_row_bound _ _ w hw
        simp
        omega
      rw [hblock, hrest, blockWrites_length]
      simp
    · have hblock : (blockWrites WriteKind.tableHeader (st.current_row + 1)
          dt.headers).filter (fun w => w.row == r) = [] := by
        rw [List.filter_eq_nil_iff]
        intro w hw
        have := blockWrites_row _ _ _ w hw
        simp
        omega
      rw [hblock]
      simp only [List.length_nil, Nat.zero_add]
      exact dataWrites_filter_length dt.rows _ _ hrows r (by omega) (by omega)
  · rw [add_data_table_eq]

/-- Witness for `data_table_renders_rows` at the concrete 2-column,
2-row table rendered into the fresh engine state. -/
theorem data_table_renders_rows_witness :
    ((((add_data_table (DataTable.mk ["Year", "GDP"]
          [["2020", "21.4"], ["2021", "23.3"]]) initial_state).writes.drop
        initial_state.writes.length).map
        (fun w => w.row)).toFinset).card = 3 ∧
    (add_data_table (DataTable.mk ["Year", "GDP"]
        [["2020", "21.4"], ["2021", "23.3"]]) initial_state).answer_cells
      = initial_state.answer_cells :=
  ⟨(data_table_renders_rows
      (DataTable.mk ["Year", "GDP"] [["2020", "21.4"], ["2021", "23.3"]])
      initial_state (by decide) (by decide)).1,
    (data_table_renders_rows
      (DataTable.mk ["Year", "GDP"] [["2020", "21.4"], ["2021", "23.3"]])
      initial_state (by decide) (by decide)).2.2⟩

/-- C6 counterexample: a table with N = 2 header columns whose single
data row has only one cell renders that data row (row 4) with 1 populated
column, not 2 as the claim states for every data row; and a table with
N = 0 header columns and M = 1 (empty) data row produces 0 formatted
rows, not M + 1 = 2. -/
theorem data_table_mismatched_row :
    (4 ∈ ((((add_data_table (DataTable.mk ["H1", "H2"] [["v"]])
        initial_state).writes.drop initial_state.writes.length).map
        (fun w => w.row)).toFinset)) ∧
    ((((add_data_table (DataTable.mk ["H1", "H2"] [["v"]])
        initial_state).writes.drop initial_state.writes.length).filter
        (fun w => w.row == 4)).length ≠ 2) ∧
    (((((add_data_table (DataTable.mk [] [[]])
        initial_state).writes.drop initial_state.writes.length).map
        (fun w => w.row)).toFinset).card = 0) := by
  refine ⟨by decide, by decide, by decide⟩

/-! ### Claim C4 -/

theorem answerCellMatches_append {ws ext : List CellWrite} {a : AnswerInfo}
    {r : Nat} (h : answerCellMatches ws a r) :
    answerCellMatches (ws ++ ext) a r := by
  obtain ⟨w, hw, hrest⟩ := h
  exact ⟨w, List.mem_append_left _ hw, hrest⟩

theorem registryInv_add_question_header (n : Nat) (t : String)
    (st : EngineState) (rows : List Nat) (h : registryInv st rows) :
    registryInv (add_question_header n t st) rows := by
  obtain ⟨h1, h2, h3⟩ := h
  rw [add_question_header_eq]
  refine ⟨h1, ?_, ?_⟩
  · intro r hr
    have := h2 r hr
    show r < st.current_row + 2
    omega
  · exact h3.imp (fun a r hm => answerCellMatches_append hm)

theorem registryInv_add_data_table (dt : DataTable) (st : EngineState)
    (rows : List Nat) (h : registryInv st rows) :
    registryInv (add_data_table dt st) rows := by
  obtain ⟨h1, h2, h3⟩ := h
  rw [add_data_table_eq]
  refine ⟨h1, ?_, ?_⟩
  · intro r hr
    have := h2 r hr
    show r < st.current_row + 3 + dt.rows.length
    omega
  · exact h3.imp (fun a r hm => answerCellMatches_append hm)

theorem registryInv_add_subquestion (sub_q : SubQuestion) (n : Nat)
    (st : EngineState) (rows : List Nat) (h : registryInv st rows) :
    registryInv (add_subquestion sub_q n st)
      (rows ++ [st.current_row + 1]) := by
  obtain ⟨h1, h2, h3⟩ := h
  rw [add_subquestion_eq]
  refine ⟨?_, ?_, ?_⟩
  · rw [List.pairwise_append]
    refine ⟨h1, List.pairwise_singleton _ _, ?_⟩
    intro a ha b hb
    rw [List.mem_singleton] at hb
    subst hb
    have := h2 a ha
    omega
  · intro r hr
    rw [List.mem_append, List.mem_singleton] at hr
    show r < st.current_row + 3
    rcases hr with hr | rfl
    · have := h2 r hr
      omega
    · omega
  · refine List.rel_append (h3.imp (fun a r hm => answerCellMatches_append hm)) ?_
    refine List.Forall₂.cons ?_ List.Forall₂.nil
    exact ⟨CellWrite.mk (st.current_row + 1) 4 "" WriteKind.answerInput,
      List.mem_append_right _ (by simp), rfl, rfl, rfl, rfl⟩

theorem registryInv_add_simple_question (q : Question) (n : Nat)
    (st : EngineState) (rows : List Nat) (h : registryInv st rows) :
    registryInv (add_simple_question q n st)
      (rows ++ [st.current_row + 2]) := by
  obtain ⟨h1, h2, h3⟩ := h
  rw [add_simple_question_eq]
  refine ⟨?_, ?_, ?_⟩
  · rw [List.pairwise_append]
    refine ⟨h1, List.pairwise_singleton _ _, ?_⟩
    intro a ha b hb
    rw [List.mem_singleton] at hb
    subst hb
    have := h2 a ha
    omega
  · intro r hr
    rw [List.mem_append, List.mem_singleton] at hr
    show r < st.current_row + 4
    rcases hr with hr | rfl
    · have := h2 r hr
      omega
    · omega
  · refine List.rel_append (h3.imp (fun a r hm => answerCellMatches_append hm)) ?_
    refine List.Forall₂.cons ?_ List.Forall₂.nil
    exact ⟨CellWrite.mk (st.current_row + 2) 3 "" WriteKind.answerInput,
      List.mem_append_right _ (by simp), rfl, rfl, rfl, rfl⟩

theorem registryInv_foldl_subquestions (subs : List SubQuestion) (n : Nat)
    (st : EngineState) (rows : List Nat) (h : registryInv st rows) :
    ∃ rows2, registryInv
      (subs.foldl (fun s sub => add_subquestion sub n s) st) rows2 := by
  induction subs generalizing st rows with
  | nil => exact ⟨rows, h⟩
  | cons sub rest ih =>
      exact ih (add_subquestion sub n st) _
        (registryInv_add_subquestion sub n st rows h)

theorem registryInv_renderQuestion (st : EngineState) (q : Question) (n : Nat)
    (rows : List Nat) (h : registryInv st rows) :
    ∃ rows2, registryInv (renderQuestion st q n) rows2 := by
  unfold renderQuestion
  by_cases hty : q.type = "data_table" ∨ q.type = "multipart"
  · rw [if_pos hty]
    have h1 := registryInv_add_question_header n q.question st rows h
    cases hdt : q.data_table with
    | none =>
        cases hsub : q.subquestions with
        | none => exact ⟨rows, h1⟩
        | some subs => exact registryInv_foldl_subquestions subs n _ rows h1
    | some dt =>
        have h2 := registryInv_add_data_table dt _ rows h1
        cases hsub : q.subquestions with
        | none => exact ⟨rows, h2⟩
        | some subs => exact registryInv_foldl_subquestions subs n _ rows h2
  · rw [if_neg hty]
    exact ⟨rows ++ [st.current_row + 2],
      registryInv_add_simple_question q n st rows h⟩

theorem registryInv_renderQuestions (qs : List Question) (st : EngineState)
    (n : Nat) (rows : List Nat) (h : registryInv st rows) :
    ∃ rows2, registryInv (renderQuestions st qs n) rows2 := by
  induction qs generalizing st n rows with
  | nil => exact ⟨rows, h⟩
  | cons q rest ih =>
      show ∃ rows2,
        registryInv (renderQuestions (renderQuestion st q n) rest (n + 1)) rows2
      obtain ⟨rows2, h2⟩ := registryInv_renderQuestion st q n rows h
      exact ih (renderQuestion st q n) (n + 1) rows2 h2

/-- C4: after rendering any ordered question list, there is an assignment
of strictly increasing student-sheet row numbers to the engine's answer
registry, in registry order, such that each entry's recorded
`cell_address` is exactly the address — column letter plus row number —
of a styled, empty, editable answer-input cell the layout engine wrote on
the student sheet; so the registry's order equals the top-to-bottom order
in which the answer cells appear to the student. -/
theorem registry_addresses_written_in_order (questions : List Question) :
    ∃ rows : List Nat, List.Pairwise (· < ·) rows ∧
      List.Forall₂
        (answerCellMatches (build_professional_workbook questions).writes)
        (build_professional_workbook questions).answer_cells rows := by
  have h0 : registryInv (setup_sheets initial_state) [] := by
    refine ⟨List.Pairwise.nil, ?_, List.Forall₂.nil⟩
    intro r hr
    cases hr
  obtain ⟨rows, h1, h2, h3⟩ :=
    registryInv_renderQuestions questions (setup_sheets initial_state) 1 [] h0
  exact ⟨rows, h1, h3⟩

/-! ### Claim C7 -/

theorem simpleValidations_truefalse (q : Question) (addr : String)
    (h : q.type = "truefalse") :
    simpleValidations q addr
      = [DataValidationRec.mk "list" "\x22True,False\x22" true addr] := by
  have hnot : ¬((q.type = "dropdown" ∨ q.type = "multiplechoice") ∧
      pyTruthyOptions q.options = true) := by
    rintro ⟨hor | hor, _⟩ <;> rw [h] at hor <;> exact absurd hor (by decide)
  rw [simpleValidations, if_neg hnot, if_pos h]

theorem simpleValidations_options (q : Question) (addr : String)
    (opts : List String)
    (hty : q.type = "dropdown" ∨ q.type = "multiplechoice")
    (hopts : q.options = some opts) (hne : opts ≠ []) :
    simpleValidations q addr
      = [DataValidationRec.mk "list"
          ("\x22" ++ String.intercalate ","
            (opts.map (fun o => o.replace "\x22" "\x27")) ++ "\x22")
          true addr] := by
  have hcond : (q.type = "dropdown" ∨ q.type = "multiplechoice") ∧
      pyTruthyOptions q.options = true := by
    refine ⟨hty, ?_⟩
    rw [hopts]
    simp [pyTruthyOptions, hne]
  rw [simpleValidations, if_pos hcond, hopts]
  simp

/-- C7 (amended): for every question rendered by `add_simple_question`,
the answer cell's constrained-input (list) validation is attached as
follows: a true/false question always gets the fixed pair `"True,False"`;
a multiple-choice or dropdown question gets its options — with embedded
double-quote characters replaced by apostrophes so the comma-joined,
quote-wrapped constraint list stays well-formed — provided its options
list is present and nonempty (with absent or empty options no validation
is attached at all); and the validation targets the same cell address the
answer registry records for the question. -/
theorem choice_validation_attached (q : Question) (n : Nat)
    (st : EngineState) :
    (q.type = "truefalse" →
      (add_simple_question q n st).validations = st.validations ++
        [DataValidationRec.mk "list" "\x22True,False\x22" true
          (get_column_letter 3 ++ toString (st.current_row + 2))]) ∧
    ((q.type = "dropdown" ∨ q.type = "multiplechoice") →
      ∀ opts, q.options = some opts → opts ≠ [] →
      (add_simple_question q n st).validations = st.validations ++
        [DataValidationRec.mk "list"
          ("\x22" ++ String.intercalate ","
            (opts.map (fun o => o.replace "\x22" "\x27")) ++ "\x22")
          true (get_column_letter 3 ++ toString (st.current_row + 2))]) ∧
    (∃ a, (add_simple_question q n st).answer_cells
        = st.answer_cells ++ [a] ∧
      a.cell_address = get_column_letter 3 ++ toString (st.current_row + 2)) := by
  refine ⟨?_, ?_, ?_⟩
  · intro htf
    rw [add_simple_question_eq]
    show st.validations ++ simpleValidations q
      (get_column_letter 3 ++ toString (st.current_row + 2)) = _
    rw [simpleValidations_truefalse q _ htf]
  · intro hty opts hopts hne
    rw [add_simple_question_eq]
    show st.validations ++ simpleValidations q
      (get_column_letter 3 ++ toString (st.current_row + 2)) = _
    rw [simpleValidations_options q _ opts hty hopts hne]
  · rw [add_simple_question_eq]
    exact ⟨_, rfl, rfl⟩

/-- Witness for `choice_validation_attached` at a concrete true/false
question and a concrete two-option multiple-choice question on the fresh
engine state. -/
theorem choice_validation_attached_witness :
    (add_simple_question
        (Question.mk "truefalse" "Sky?" (some "True") none none none none)
        1 initial_state).validations
      = initial_state.validations ++
        [DataValidationRec.mk "list" "\x22True,False\x22" true
          (get_column_letter 3 ++ toString (initial_state.current_row + 2))] ∧
    (add_simple_question
        (Question.mk "multiplechoice" "Pick" (some "B") (some ["A", "B"])
          none none none)
        1 initial_state).validations
      = initial_state.validations ++
        [DataValidationRec.mk "list"
          ("\x22" ++ String.intercalate ","
            ((["A", "B"]).map (fun o => o.replace "\x22" "\x27")) ++ "\x22")
          true (get_column_letter 3 ++ toString (initial_state.current_row + 2))] :=
  ⟨(choice_validation_attached
      (Question.mk "truefalse" "Sky?" (some "True") none none none none)
      1 initial_state).1 rfl,
    (choice_validation_attached
      (Question.mk "multiplechoice" "Pick" (some "B") (some ["A", "B"])
        none none none)
      1 initial_state).2.1 (Or.inr rfl) ["A", "B"] rfl (by decide)⟩

/-- C7 counterexample: a multiple-choice question whose `options` field
is absent is choice-style, yet `add_simple_question` attaches no
constrained-input validation at all to its answer cell: starting from the
fresh state, the resulting validation list is empty. -/
theorem choice_without_options_no_validation :
    (Question.mk "multiplechoice" "Pick" (some "A") none none none none).type
      = "multiplechoice" ∧
    (add_simple_question
      (Question.mk "multiplechoice" "Pick" (some "A") none none none none)
      1 initial_state).validations = [] := by
  refine ⟨rfl, by decide⟩

end ExamBuilder
